import Mathlib

/-!
Verification of the NVSConfigBus per-module configuration persistence layer
(NVSConfigBus.cpp / NVSConfigBus.h): tiered format resolution across legacy
JSON strings, JSON byte blobs and MessagePack byte blobs, with opportunistic
migration, modeled as pure state-passing functions over an explicit store.

The backing key-value store (ESP32 Preferences/NVS) and the document codec
(ArduinoJson) are external collaborators; they are modeled from their contract
in the specification (sections "EXTERNAL INTERFACES"): a store maps string
keys to either a byte blob or a legacy string value, and fallible operations
(open, getBytes, putBytes, buffer allocation) draw success flags from an
explicit fault schedule so that both fault-free and faulty executions of the
source code can be examined.  An empty fault schedule means every fallible
operation succeeds.
-/

namespace NVSBus

/-- A configuration document is modeled as an opaque payload; the core never
inspects its contents, only hands it to the codec.  The empty document
(after doc.clear()) is the empty payload. -/
abbrev Doc := List Nat

/-- Model of DynamicJsonDocument.clear(): the cleared/empty document. -/
def emptyDoc : Doc := []

/-- A value stored under one NVS key: either a raw byte blob (putBytes) or a
legacy string value (putString). -/
inductive StoredVal where
  | bytesVal (data : List Nat)
  | strVal (s : String)
deriving DecidableEq, Repr

/-- The contents of one NVS namespace: an association list from keys to
stored values (at most one binding per key is maintained by putVal). -/
abbrev Store := List (String × StoredVal)

/-- Look up the value stored under a key. -/
def lookupKey : Store → String → Option StoredVal
  | [], _ => none
  | (k, v) :: rest, key => if k = key then some v else lookupKey rest key

/-- Model of Preferences::isKey: does the key exist in any form. -/
def isKey (st : Store) (k : String) : Bool :=
  (lookupKey st k).isSome

/-- Model of Preferences::getBytesLength: the byte length of a blob value;
0 for a legacy string value or an absent key (the overloaded signal the
source relies on to detect the legacy form). -/
def getBytesLength (st : Store) (k : String) : Nat :=
  match lookupKey st k with
  | some (.bytesVal b) => b.length
  | some (.strVal _) => 0
  | none => 0

/-- Model of Preferences::getString with a default: returns the stored
string value, or the default when the key is absent or holds a blob. -/
def getString (st : Store) (k : String) (dflt : String) : String :=
  match lookupKey st k with
  | some (.strVal s) => s
  | _ => dflt

/-- Model of Preferences::remove: delete every binding of the key. -/
def removeKey (st : Store) (k : String) : Store :=
  st.filter (fun p => p.1 ≠ k)

/-- Overwrite the value bound to a key (Preferences::putBytes semantics on
the stored map: the new blob replaces whatever was there). -/
def putVal (st : Store) (k : String) (v : StoredVal) : Store :=
  (k, v) :: removeKey st k

/-- Draw the next success flag from a fault schedule; an exhausted schedule
yields success, so the empty schedule is the fault-free execution. -/
def takeFault : List Bool → Bool × List Bool
  | [] => (true, [])
  | b :: rest => (b, rest)

/-- The state threaded through an operation: the persistent store contents
plus the schedule of success flags for fallible primitives (Preferences
begin, getBytes, putBytes, and malloc), consumed in program order. -/
structure NVSState where
  store : Store
  faults : List Bool
deriving DecidableEq, Repr

/-- Model of Preferences::begin (read-only or read-write): succeeds or fails
according to the fault schedule, leaving the store untouched. -/
def beginPrefs (s : NVSState) : Bool × NVSState :=
  ((takeFault s.faults).1, { s with faults := (takeFault s.faults).2 })

/-- Model of malloc for a scratch buffer: succeeds or fails according to the
fault schedule. -/
def allocBuf (s : NVSState) : Bool × NVSState :=
  ((takeFault s.faults).1, { s with faults := (takeFault s.faults).2 })

/-- Model of Preferences::getBytes(key, buf, req): on success reads the blob
stored under the key when its length equals the requested length, returning
the number of bytes read and the data; any mismatch, absence, legacy-string
value or injected fault reads 0 bytes. -/
def getBytes (s : NVSState) (k : String) (req : Nat) :
    (Nat × List Nat) × NVSState :=
  let ok := (takeFault s.faults).1
  let s1 : NVSState := { s with faults := (takeFault s.faults).2 }
  if ok then
    match lookupKey s.store k with
    | some (.bytesVal b) =>
      if b.length = req then ((b.length, b), s1) else ((0, []), s1)
    | _ => ((0, []), s1)
  else ((0, []), s1)

/-- Model of Preferences::putBytes(key, data): on success stores the blob and
reports its full length written; on an injected fault reports 0 bytes written
and leaves the store unchanged. -/
def putBytes (s : NVSState) (k : String) (data : List Nat) :
    Nat × NVSState :=
  let ok := (takeFault s.faults).1
  let fs := (takeFault s.faults).2
  if ok then
    (data.length, { store := putVal s.store k (.bytesVal data), faults := fs })
  else (0, { s with faults := fs })

/-- Document codec collaborator (ArduinoJson), modeled from the spec contract
"Document collaborator contract required": compact (MessagePack) and text
(JSON) encoders returning the full encoding or a failure signal, and the
matching decoders, plus a decoder from a legacy string value. -/
structure Codec where
  serMP : Doc → Option (List Nat)
  deMP : List Nat → Option Doc
  serJ : Doc → Option (List Nat)
  deJ : List Nat → Option Doc
  deJStr : String → Option Doc

/-- Model of serializeMsgPack(doc, buf, bufSize): reports the encoded size
(0 on serialization failure) together with the encoded bytes; the caller in
the source rejects the result when the reported size exceeds the buffer, per
the overflow signal of the spec collaborator contract. -/
def encodeMP (c : Codec) (d : Doc) : Nat × List Nat :=
  match c.serMP d with
  | none => (0, [])
  | some b => (b.length, b)

/-- Model of serializeJson(doc, buf, bufSize): reports the encoded size
(0 on serialization failure) together with the encoded bytes. -/
def encodeJ (c : Codec) (d : Doc) : Nat × List Nat :=
  match c.serJ d with
  | none => (0, [])
  | some b => (b.length, b)

/-- Embedding of NVSConfigBus::buildMsgPackKey: appends the 3-character
suffix ":mp" to the module id after checking the pointer, the 15-character
NVS key ceiling and the destination buffer capacity (suffix plus null
terminator).  A null moduleId is modeled by none; the destination buffer is
described by its size alone. -/
def buildMsgPackKey (moduleId : Option String) (keyBufSize : Nat) :
    Option String :=
  match moduleId with
  | none => none
  | some mid =>
    if keyBufSize = 0 then none
    else if mid.length + 3 > 15 then none
    else if mid.length + 3 + 1 > keyBufSize then none
    else some (mid ++ ":mp")

/-- Embedding of NVSConfigBus::saveModuleConfigMsgPack: serialize the
document as MessagePack into the caller buffer and store it under the
compact key built with the ":mp" suffix (key buffer of 64 in the source). -/
def saveModuleConfigMsgPack (c : Codec) (moduleId : Option String) (d : Doc)
    (bufSize : Nat) (s : NVSState) : Bool × NVSState :=
  match moduleId with
  | none => (false, s)
  | some mid =>
    if mid.length = 0 then (false, s)
    else if bufSize = 0 then (false, s)
    else
      let enc := encodeMP c d
      if enc.1 = 0 then (false, s)
      else if enc.1 > bufSize then (false, s)
      else
        match buildMsgPackKey (some mid) 64 with
        | none => (false, s)
        | some key =>
          let b := beginPrefs s
          if !b.1 then (false, b.2)
          else
            let w := putBytes b.2 key enc.2
            if w.1 = 0 then (false, w.2)
            else if w.1 ≠ enc.1 then (false, w.2)
            else (true, w.2)

/-- Embedding of NVSConfigBus::loadModuleConfigMsgPack: build the compact
key, open the store, check existence, query the stored length against the
caller buffer, read exactly that many bytes and deserialize as MessagePack;
the caller document is cleared on every failure path. -/
def loadModuleConfigMsgPack (c : Codec) (moduleId : Option String)
    (bufSize : Nat) (s : NVSState) : Bool × Doc × NVSState :=
  match moduleId with
  | none => (false, emptyDoc, s)
  | some mid =>
    if mid.length = 0 then (false, emptyDoc, s)
    else if bufSize = 0 then (false, emptyDoc, s)
    else
      match buildMsgPackKey (some mid) 64 with
      | none => (false, emptyDoc, s)
      | some key =>
        let b := beginPrefs s
        if !b.1 then (false, emptyDoc, b.2)
        else if !(isKey b.2.store key) then (false, emptyDoc, b.2)
        else
          let storedSize := getBytesLength b.2.store key
          if storedSize = 0 ∨ storedSize > bufSize then (false, emptyDoc, b.2)
          else
            let g := getBytes b.2 key storedSize
            if g.1.1 ≠ storedSize then (false, emptyDoc, g.2)
            else
              match c.deMP g.1.2 with
              | none => (false, emptyDoc, g.2)
              | some d => (true, d, g.2)

/-- Embedding of the legacy-string migration block of
NVSConfigBus::loadModuleConfig (lines 135-156): after a successful decode of
the legacy string, allocate a scratch buffer, serialize the document as JSON
bytes and, when the size fits, open the store read-write, remove the
primary key and write the bytes under it; the write result is only logged. -/
def stringMigrate (c : Codec) (mid : String) (d : Doc) (s : NVSState) :
    NVSState :=
  let a := allocBuf s
  if !a.1 then a.2
  else
    let enc := encodeJ c d
    if 0 < enc.1 ∧ enc.1 < 2048 then
      let b := beginPrefs a.2
      if !b.1 then b.2
      else
        let s3 : NVSState := { b.2 with store := removeKey b.2.store mid }
        (putBytes s3 mid enc.2).2
    else a.2

/-- Embedding of the JSON-to-MessagePack migration block of
NVSConfigBus::loadModuleConfig (lines 159-178): when the compact key can be
built and does not yet exist, allocate a scratch buffer and save the decoded
document as MessagePack; every failure here is silent. -/
def mpMigrate (c : Codec) (mid : String) (d : Doc) (s : NVSState) :
    NVSState :=
  match buildMsgPackKey (some mid) 64 with
  | none => s
  | some key =>
    let b := beginPrefs s
    if !b.1 then b.2
    else if isKey b.2.store key then b.2
    else
      let a := allocBuf b.2
      if !a.1 then a.2
      else (saveModuleConfigMsgPack c (some mid) d 2048 a.2).2

/-- Embedding of the JSON fallback of NVSConfigBus::loadModuleConfig (lines
59-180): open the store read-only, check the primary key, read the JSON
bytes form when the stored length is non-zero, otherwise read the legacy
string form and migrate it to bytes; after a successful decode run the
MessagePack migration. -/
def jsonFallback (c : Codec) (mid : String) (s : NVSState) :
    Bool × Doc × NVSState :=
  let b := beginPrefs s
  if !b.1 then (false, emptyDoc, b.2)
  else if !(isKey b.2.store mid) then (false, emptyDoc, b.2)
  else
    let jsonSize := getBytesLength b.2.store mid
    if jsonSize > 0 then
      let a := allocBuf b.2
      if !a.1 then (false, emptyDoc, a.2)
      else if jsonSize > 2048 then (false, emptyDoc, a.2)
      else
        let g := getBytes a.2 mid jsonSize
        if g.1.1 ≠ jsonSize then (false, emptyDoc, g.2)
        else
          match c.deJ g.1.2 with
          | none => (false, emptyDoc, g.2)
          | some d => (true, d, mpMigrate c mid d g.2)
    else
      let str := getString b.2.store mid ""
      if str.length = 0 then (false, emptyDoc, b.2)
      else
        match c.deJStr str with
        | none => (false, emptyDoc, b.2)
        | some d =>
          let s2 := stringMigrate c mid d b.2
          (true, d, mpMigrate c mid d s2)

/-- Embedding of NVSConfigBus::loadModuleConfig: validate the module id, try
the MessagePack path with an internal 2048-byte buffer (skipped when its
allocation fails), and fall back to the JSON/legacy path on any MessagePack
failure. -/
def loadModuleConfig (c : Codec) (moduleId : Option String) (s : NVSState) :
    Bool × Doc × NVSState :=
  match moduleId with
  | none => (false, emptyDoc, s)
  | some mid =>
    if mid.length = 0 then (false, emptyDoc, s)
    else
      let a := allocBuf s
      if a.1 then
        let r := loadModuleConfigMsgPack c (some mid) 2048 a.2
        if r.1 then (true, r.2.1, r.2.2)
        else jsonFallback c mid r.2.2
      else jsonFallback c mid a.2

/-- Embedding of the JSON fallback of NVSConfigBus::saveModuleConfig (lines
200-234): allocate a scratch buffer, serialize the document as JSON bytes
and write them under the primary key. -/
def jsonSaveFallback (c : Codec) (mid : String) (d : Doc) (s : NVSState) :
    Bool × NVSState :=
  let a := allocBuf s
  if !a.1 then (false, a.2)
  else
    let enc := encodeJ c d
    if enc.1 = 0 ∨ enc.1 ≥ 2048 then (false, a.2)
    else
      let b := beginPrefs a.2
      if !b.1 then (false, b.2)
      else
        let w := putBytes b.2 mid enc.2
        if w.1 = 0 ∨ w.1 ≠ enc.1 then (false, w.2)
        else (true, w.2)

/-- Embedding of NVSConfigBus::saveModuleConfig: validate the module id, try
the MessagePack save with an internal 2048-byte buffer, and fall back to the
JSON bytes save on any failure. -/
def saveModuleConfig (c : Codec) (moduleId : Option String) (d : Doc)
    (s : NVSState) : Bool × NVSState :=
  match moduleId with
  | none => (false, s)
  | some mid =>
    if mid.length = 0 then (false, s)
    else
      let a := allocBuf s
      if a.1 then
        let r := saveModuleConfigMsgPack c (some mid) d 2048 a.2
        if r.1 then (true, r.2) else jsonSaveFallback c mid d r.2
      else jsonSaveFallback c mid d a.2

/-- Embedding of NVSConfigBus::clearModuleConfig: open the store read-write,
remove the primary key if present, remove the compact key if it can be built
and is present, and report whether either existed. -/
def clearModuleConfig (moduleId : Option String) (s : NVSState) :
    Bool × NVSState :=
  match moduleId with
  | none => (false, s)
  | some mid =>
    if mid.length = 0 then (false, s)
    else
      let b := beginPrefs s
      if !b.1 then (false, b.2)
      else
        let jsonExisted := isKey b.2.store mid
        let st1 := if jsonExisted then removeKey b.2.store mid else b.2.store
        let step :=
          match buildMsgPackKey (some mid) 64 with
          | some key =>
            let e := isKey st1 key
            (e, if e then removeKey st1 key else st1)
          | none => (false, st1)
        (jsonExisted || step.1, { b.2 with store := step.2 })

/-- A concrete executable codec used to witness the theorems: the compact
encoding tags the payload with 0, the text encoding tags it with 1, and the
decoders invert those tags; a legacy string decodes to its character codes. -/
def demoCodec : Codec where
  serMP d := some (0 :: d)
  deMP b := match b with
    | 0 :: d => some d
    | _ => none
  serJ d := some (1 :: d)
  deJ b := match b with
    | 1 :: d => some d
    | _ => none
  deJStr s := if s.length = 0 then none else some (s.data.map Char.toNat)

end NVSBus

namespace NVSBus

theorem lookupKey_removeKey (st : Store) (k k' : String) :
    lookupKey (removeKey st k) k' = if k = k' then none else lookupKey st k' := by
  induction st with
  | nil => simp [removeKey, lookupKey]
  | cons p rest ih =>
    by_cases hp : p.1 = k
    · by_cases hk : k = k'
      · simp_all [removeKey, lookupKey]
      · simp_all [removeKey, lookupKey]
    · by_cases hpk : p.1 = k'
      · simp_all [removeKey, lookupKey]
        intro h
        exact absurd rfl (h ▸ hp)
      · simp_all [removeKey, lookupKey]

theorem lookupKey_putVal (st : Store) (k k' : String) (v : StoredVal) :
    lookupKey (putVal st k v) k' = if k = k' then some v else lookupKey st k' := by
  by_cases h : k = k' <;> simp [putVal, lookupKey, lookupKey_removeKey, h]

theorem append_mp_ne (mid : String) : mid ++ ":mp" ≠ mid := by
  intro h
  have hlen := congrArg String.length h
  rw [String.length_append] at hlen
  have h3 : (":mp").length = 3 := rfl
  omega

theorem buildMsgPackKey_of_le (mid : String) (h : mid.length ≤ 12) :
    buildMsgPackKey (some mid) 64 = some (mid ++ ":mp") := by
  have h1 : ¬ ((64 : Nat) = 0) := by omega
  have h2 : ¬ (mid.length + 3 > 15) := by omega
  have h3 : ¬ (mid.length + 3 + 1 > 64) := by omega
  simp [buildMsgPackKey, h1, h2, h3]

theorem buildMsgPackKey_some (mid : String) (sz : Nat) (key : String)
    (h : buildMsgPackKey (some mid) sz = some key) : key = mid ++ ":mp" := by
  unfold buildMsgPackKey at h
  split at h
  · simp_all
  · split at h
    · simp_all
    · split at h
      · simp_all
      · simp_all

end NVSBus

namespace NVSBus

/-- Claim C3 (counterexample): for an empty, non-null ModuleId, compact-key
construction is claimed to fail; in the code buildMsgPackKey only checks for
a null pointer, so the empty ModuleId succeeds and yields the bare suffix
":mp" as the key. -/
theorem emptyModuleIdKeySucceeds : buildMsgPackKey (some "") 64 = some ":mp" := by
  decide

/-- Claim C3 (amended): compact-key construction fails exactly when the
ModuleId is absent (null), or the combined length exceeds the store key
limit of 15, or the destination buffer is too small for the result plus its
null terminator (which subsumes a zero-size buffer); an empty but non-null
ModuleId is not by itself a failure. -/
theorem buildMsgPackKeyFailureCond (moduleId : Option String) (sz : Nat) :
    buildMsgPackKey moduleId sz = none ↔
      (moduleId = none ∨
       ∃ m, moduleId = some m ∧ (15 < m.length + 3 ∨ sz < m.length + 3 + 1)) := by
  cases moduleId with
  | none => simp [buildMsgPackKey]
  | some m =>
    simp only [buildMsgPackKey]
    split_ifs with h1 h2 h3 <;> simp <;> omega

/-- Claim C5: a ModuleId of exactly 12 characters always produces a compact
key when the destination buffer has room for the 16 resulting bytes, and a
ModuleId of 13 or more characters always fails the 15-character store key
limit, independently of the destination buffer size. -/
theorem keyLengthBoundary (mid : String) (sz : Nat) :
    (mid.length = 12 → 16 ≤ sz →
      buildMsgPackKey (some mid) sz = some (mid ++ ":mp")) ∧
    (13 ≤ mid.length → buildMsgPackKey (some mid) sz = none) := by
  constructor
  · intro h12 hsz
    have h1 : ¬ (sz = 0) := by omega
    have h2 : ¬ (mid.length + 3 > 15) := by omega
    have h3 : ¬ (mid.length + 3 + 1 > sz) := by omega
    simp [buildMsgPackKey, h1, h2, h3]
  · intro h13
    have h2 : mid.length + 3 > 15 := by omega
    simp [buildMsgPackKey, h2]

/-- Claim C5 (witness): the boundary at concrete module ids of 12 and 13
characters. -/
theorem keyLengthBoundaryWitness :
    buildMsgPackKey (some "abcdefghijkl") 64 = some "abcdefghijkl:mp" ∧
    buildMsgPackKey (some "abcdefghijklm") 64 = none := by
  constructor
  · rw [(keyLengthBoundary "abcdefghijkl" 64).1 (by decide) (by decide)]
    decide
  · exact (keyLengthBoundary "abcdefghijklm" 64).2 (by decide)

end NVSBus


namespace NVSBus

theorem loadMP_shape (c : Codec) (moduleId : Option String) (bufSize : Nat)
    (s : NVSState) :
    (loadModuleConfigMsgPack c moduleId bufSize s).1 = true ∨
    (loadModuleConfigMsgPack c moduleId bufSize s).2.1 = emptyDoc := by
  unfold loadModuleConfigMsgPack
  dsimp only
  repeat' split
  all_goals simp

theorem jsonFallback_shape (c : Codec) (mid : String) (s : NVSState) :
    (jsonFallback c mid s).1 = true ∨
    (jsonFallback c mid s).2.1 = emptyDoc := by
  unfold jsonFallback
  dsimp only
  repeat' split
  all_goals simp

theorem loadConfig_shape (c : Codec) (moduleId : Option String) (s : NVSState) :
    (loadModuleConfig c moduleId s).1 = true ∨
    (loadModuleConfig c moduleId s).2.1 = emptyDoc := by
  unfold loadModuleConfig
  dsimp only
  split
  · simp
  · split
    · simp
    · split
      · split
        · simp
        · exact jsonFallback_shape c _ _
      · exact jsonFallback_shape c _ _

end NVSBus

namespace NVSBus

/-- Claim C6: on every failure path of loadModuleConfig and
loadModuleConfigMsgPack, the caller document is left cleared (empty)
whenever the call returns false. -/
theorem loadFailureClearsDoc (c : Codec) (moduleId : Option String)
    (bufSize : Nat) (s : NVSState) :
    ((loadModuleConfigMsgPack c moduleId bufSize s).1 = false →
      (loadModuleConfigMsgPack c moduleId bufSize s).2.1 = emptyDoc) ∧
    ((loadModuleConfig c moduleId s).1 = false →
      (loadModuleConfig c moduleId s).2.1 = emptyDoc) := by
  constructor
  · intro h
    rcases loadMP_shape c moduleId bufSize s with h1 | h1
    · simp [h] at h1
    · exact h1
  · intro h
    rcases loadConfig_shape c moduleId s with h1 | h1
    · simp [h] at h1
    · exact h1

/-- Claim C6 (witness): a failing load with a null module id on the empty
store leaves the document empty. -/
theorem loadFailureClearsDocWitness :
    (loadModuleConfigMsgPack demoCodec none 0 ⟨[], []⟩).2.1 = emptyDoc ∧
    (loadModuleConfig demoCodec none ⟨[], []⟩).2.1 = emptyDoc :=
  ⟨(loadFailureClearsDoc demoCodec none 0 ⟨[], []⟩).1 (by decide),
   (loadFailureClearsDoc demoCodec none 0 ⟨[], []⟩).2 (by decide)⟩

/-- Claim C10: a compact key that exists but whose stored byte-length is
zero (an empty blob or a string value under the compact key) makes
loadModuleConfigMsgPack fail and clear the document, regardless of the
fault schedule; it is never treated as a valid empty configuration. -/
theorem zeroLengthCompactRejected (c : Codec) (mid : String) (bufSize : Nat)
    (s : NVSState)
    (h0 : ¬ (mid.length = 0)) (hb : ¬ (bufSize = 0)) (h12 : mid.length ≤ 12)
    (hex : isKey s.store (mid ++ ":mp") = true)
    (hlen : getBytesLength s.store (mid ++ ":mp") = 0) :
    (loadModuleConfigMsgPack c (some mid) bufSize s).1 = false ∧
    (loadModuleConfigMsgPack c (some mid) bufSize s).2.1 = emptyDoc := by
  unfold loadModuleConfigMsgPack
  dsimp only
  rw [if_neg h0, if_neg hb, buildMsgPackKey_of_le mid h12]
  dsimp only
  split
  · simp
  · simp [beginPrefs, hex, hlen]

/-- Claim C10 (witness): a concrete store holding an empty blob under the
compact key. -/
theorem zeroLengthCompactRejectedWitness :
    (loadModuleConfigMsgPack demoCodec (some "m") 2048
        ⟨[("m:mp", .bytesVal [])], []⟩).1 = false ∧
    (loadModuleConfigMsgPack demoCodec (some "m") 2048
        ⟨[("m:mp", .bytesVal [])], []⟩).2.1 = emptyDoc :=
  zeroLengthCompactRejected demoCodec "m" 2048 ⟨[("m:mp", .bytesVal [])], []⟩
    (by decide) (by decide) (by decide) (by decide) (by decide)

theorem putBytes_frame (s : NVSState) (k k' : String) (data : List Nat)
    (h : k' ≠ k) :
    lookupKey (putBytes s k data).2.store k' = lookupKey s.store k' := by
  unfold putBytes
  dsimp only
  split
  · dsimp only
    rw [lookupKey_putVal, if_neg (Ne.symm h)]
  · rfl

theorem saveMP_frame (c : Codec) (moduleId : Option String) (d : Doc)
    (bufSize : Nat) (s : NVSState) (k : String)
    (hk : ∀ mid, moduleId = some mid → k ≠ mid ++ ":mp") :
    lookupKey (saveModuleConfigMsgPack c moduleId d bufSize s).2.store k =
      lookupKey s.store k := by
  cases moduleId with
  | none => rfl
  | some mid =>
    have hk2 : k ≠ mid ++ ":mp" := hk mid rfl
    unfold saveModuleConfigMsgPack
    dsimp only
    repeat' split
    all_goals first
      | rfl
      | (refine putBytes_frame _ _ _ _ ?_
         intro hkk
         subst hkk
         exact hk2 (buildMsgPackKey_some mid 64 k (by assumption)))

/-- Claim C9: a successful compact-binary save writes only the compact key;
the value stored under the primary key is unchanged by
saveModuleConfigMsgPack.  The hypothesis states the success of the save; the
frame fact holds on every path, so the proof does not need it. -/
theorem saveMsgPackPreservesPrimary (c : Codec) (mid : String) (d : Doc)
    (bufSize : Nat) (s : NVSState)
    (_h : (saveModuleConfigMsgPack c (some mid) d bufSize s).1 = true) :
    lookupKey (saveModuleConfigMsgPack c (some mid) d bufSize s).2.store mid =
      lookupKey s.store mid :=
  saveMP_frame c (some mid) d bufSize s mid
    (by intro m hm hc
        have hm2 : mid = m := by injection hm
        rw [hm2] at hc
        exact append_mp_ne m hc.symm)

/-- Claim C9 (witness): a successful concrete save leaves the primary key
binding (here a legacy string) untouched. -/
theorem saveMsgPackPreservesPrimaryWitness :
    (saveModuleConfigMsgPack demoCodec (some "m") [5] 2048
        ⟨[("m", .strVal "old")], []⟩).1 = true ∧
    lookupKey (saveModuleConfigMsgPack demoCodec (some "m") [5] 2048
        ⟨[("m", .strVal "old")], []⟩).2.store "m" =
      lookupKey [("m", StoredVal.strVal "old")] "m" :=
  ⟨by decide,
   saveMsgPackPreservesPrimary demoCodec "m" [5] 2048
     ⟨[("m", .strVal "old")], []⟩ (by decide)⟩

end NVSBus

namespace NVSBus

theorem saveMP_ok (c : Codec) (mid : String) (d : Doc) (b : List Nat)
    (st : Store)
    (h0 : ¬ (mid.length = 0)) (h12 : mid.length ≤ 12)
    (hser : c.serMP d = some b) (hb0 : ¬ (b.length = 0))
    (hfit : b.length ≤ 2048) :
    saveModuleConfigMsgPack c (some mid) d 2048 ⟨st, []⟩ =
      (true, ⟨putVal st (mid ++ ":mp") (.bytesVal b), []⟩) := by
  have henc : encodeMP c d = (b.length, b) := by simp [encodeMP, hser]
  have hgt : ¬ (b.length > 2048) := by omega
  unfold saveModuleConfigMsgPack
  simp [henc, buildMsgPackKey_of_le mid h12, h0, hb0, hgt,
        beginPrefs, putBytes, takeFault]

theorem loadMP_ok (c : Codec) (mid : String) (b : List Nat) (d : Doc)
    (st : Store)
    (h0 : ¬ (mid.length = 0)) (h12 : mid.length ≤ 12)
    (hst : lookupKey st (mid ++ ":mp") = some (.bytesVal b))
    (hb0 : ¬ (b.length = 0)) (hfit : b.length ≤ 2048)
    (hde : c.deMP b = some d) :
    loadModuleConfigMsgPack c (some mid) 2048 ⟨st, []⟩ =
      (true, d, ⟨st, []⟩) := by
  have hgt : ¬ (b.length > 2048) := by omega
  unfold loadModuleConfigMsgPack
  simp [buildMsgPackKey_of_le mid h12, h0, hb0, hgt, beginPrefs, takeFault,
        isKey, hst, getBytesLength, getBytes, hde]

theorem loadMP_notfound (c : Codec) (mid : String) (st : Store)
    (f : List Bool) (hf : (takeFault f).1 = true)
    (h0 : ¬ (mid.length = 0)) (h12 : mid.length ≤ 12)
    (hab : lookupKey st (mid ++ ":mp") = none) :
    loadModuleConfigMsgPack c (some mid) 2048 ⟨st, f⟩ =
      (false, emptyDoc, ⟨st, (takeFault f).2⟩) := by
  unfold loadModuleConfigMsgPack
  simp [buildMsgPackKey_of_le mid h12, h0, beginPrefs, hf, isKey, hab]

/-- Claim C2: for a document whose compact encoding fits the 2048-byte
scratch buffer (and round-trips through the codec) and a non-empty ModuleId
of at most 12 characters, saveModuleConfig followed by loadModuleConfig on a
fault-free store succeeds and returns the same document. -/
theorem saveLoadRoundTrip (c : Codec) (mid : String) (d : Doc) (b : List Nat)
    (h0 : ¬ (mid.length = 0)) (h12 : mid.length ≤ 12)
    (hser : c.serMP d = some b) (hb0 : ¬ (b.length = 0))
    (hfit : b.length ≤ 2048) (hde : c.deMP b = some d) (st : Store) :
    (saveModuleConfig c (some mid) d ⟨st, []⟩).1 = true ∧
    loadModuleConfig c (some mid) (saveModuleConfig c (some mid) d ⟨st, []⟩).2 =
      (true, d, (saveModuleConfig c (some mid) d ⟨st, []⟩).2) := by
  have hsave : saveModuleConfig c (some mid) d ⟨st, []⟩ =
      (true, ⟨putVal st (mid ++ ":mp") (.bytesVal b), []⟩) := by
    unfold saveModuleConfig
    simp [h0, allocBuf, takeFault,
          saveMP_ok c mid d b st h0 h12 hser hb0 hfit]
  have hlk : lookupKey (putVal st (mid ++ ":mp") (.bytesVal b))
      (mid ++ ":mp") = some (.bytesVal b) := by
    rw [lookupKey_putVal]
    simp
  have hload : loadModuleConfig c (some mid)
      ⟨putVal st (mid ++ ":mp") (.bytesVal b), []⟩ =
      (true, d, ⟨putVal st (mid ++ ":mp") (.bytesVal b), []⟩) := by
    unfold loadModuleConfig
    simp [h0, allocBuf, takeFault,
          loadMP_ok c mid b d _ h0 h12 hlk hb0 hfit hde]
  rw [hsave]
  exact ⟨rfl, by rw [hload]⟩

/-- Claim C2 (witness): a concrete round trip through the demo codec. -/
theorem saveLoadRoundTripWitness :
    (saveModuleConfig demoCodec (some "m") [5] ⟨[], []⟩).1 = true ∧
    loadModuleConfig demoCodec (some "m")
        (saveModuleConfig demoCodec (some "m") [5] ⟨[], []⟩).2 =
      (true, [5], (saveModuleConfig demoCodec (some "m") [5] ⟨[], []⟩).2) :=
  saveLoadRoundTrip demoCodec "m" [5] [0, 5] (by decide) (by decide) rfl
    (by decide) (by decide) rfl []

end NVSBus

namespace NVSBus

theorem saveMP_ok_f (c : Codec) (mid : String) (d : Doc) (b : List Nat)
    (st : Store) (rest : List Bool)
    (h0 : ¬ (mid.length = 0)) (h12 : mid.length ≤ 12)
    (hser : c.serMP d = some b) (hb0 : ¬ (b.length = 0))
    (hfit : b.length ≤ 2048) :
    saveModuleConfigMsgPack c (some mid) d 2048 ⟨st, true :: true :: rest⟩ =
      (true, ⟨putVal st (mid ++ ":mp") (.bytesVal b), rest⟩) := by
  have henc : encodeMP c d = (b.length, b) := by simp [encodeMP, hser]
  have hgt : ¬ (b.length > 2048) := by omega
  unfold saveModuleConfigMsgPack
  simp [henc, buildMsgPackKey_of_le mid h12, h0, hb0, hgt,
        beginPrefs, putBytes, takeFault]

theorem saveMP_putfail (c : Codec) (mid : String) (d : Doc) (b : List Nat)
    (st : Store) (rest : List Bool)
    (h0 : ¬ (mid.length = 0)) (h12 : mid.length ≤ 12)
    (hser : c.serMP d = some b) (hb0 : ¬ (b.length = 0))
    (hfit : b.length ≤ 2048) :
    saveModuleConfigMsgPack c (some mid) d 2048 ⟨st, true :: false :: rest⟩ =
      (false, ⟨st, rest⟩) := by
  have henc : encodeMP c d = (b.length, b) := by simp [encodeMP, hser]
  have hgt : ¬ (b.length > 2048) := by omega
  unfold saveModuleConfigMsgPack
  simp [henc, buildMsgPackKey_of_le mid h12, h0, hb0, hgt,
        beginPrefs, putBytes, takeFault]

theorem mpMigrate_ok (c : Codec) (mid : String) (d : Doc) (mb : List Nat)
    (st : Store)
    (h0 : ¬ (mid.length = 0)) (h12 : mid.length ≤ 12)
    (hmp : lookupKey st (mid ++ ":mp") = none)
    (hm : c.serMP d = some mb) (hm0 : ¬ (mb.length = 0))
    (hmfit : mb.length ≤ 2048) :
    mpMigrate c mid d ⟨st, [true, true, true, true]⟩ =
      ⟨putVal st (mid ++ ":mp") (.bytesVal mb), []⟩ := by
  unfold mpMigrate
  simp [buildMsgPackKey_of_le mid h12, beginPrefs, allocBuf, takeFault,
        isKey, hmp, saveMP_ok_f c mid d mb st [] h0 h12 hm hm0 hmfit]

theorem mpMigrate_putfail (c : Codec) (mid : String) (d : Doc) (mb : List Nat)
    (st : Store)
    (h0 : ¬ (mid.length = 0)) (h12 : mid.length ≤ 12)
    (hmp : lookupKey st (mid ++ ":mp") = none)
    (hm : c.serMP d = some mb) (hm0 : ¬ (mb.length = 0))
    (hmfit : mb.length ≤ 2048) :
    mpMigrate c mid d ⟨st, [true, true, true, false]⟩ = ⟨st, []⟩ := by
  unfold mpMigrate
  simp [buildMsgPackKey_of_le mid h12, beginPrefs, allocBuf, takeFault,
        isKey, hmp, saveMP_putfail c mid d mb st [] h0 h12 hm hm0 hmfit]

theorem jsonFallback_bytes (c : Codec) (mid : String) (jb : List Nat) (d : Doc)
    (st : Store) (rest : List Bool)
    (hj : lookupKey st mid = some (.bytesVal jb)) (hj0 : ¬ (jb.length = 0))
    (hjfit : jb.length ≤ 2048) (hde : c.deJ jb = some d) :
    jsonFallback c mid ⟨st, true :: true :: true :: rest⟩ =
      (true, d, mpMigrate c mid d ⟨st, rest⟩) := by
  have hglen : getBytesLength st mid = jb.length := by simp [getBytesLength, hj]
  have hpos : 0 < jb.length := Nat.pos_of_ne_zero hj0
  have hgt : ¬ (jb.length > 2048) := by omega
  unfold jsonFallback
  simp [beginPrefs, allocBuf, takeFault, isKey, hj, hglen, hpos, hgt,
        getBytes, hde]

end NVSBus

namespace NVSBus


end NVSBus

namespace NVSBus

theorem stringMigrate_putfail (c : Codec) (mid : String) (d : Doc)
    (jb : List Nat) (st : Store) (rest : List Bool)
    (hj : c.serJ d = some jb) (hj0 : 0 < jb.length) (hjlt : jb.length < 2048) :
    stringMigrate c mid d ⟨st, true :: true :: false :: rest⟩ =
      ⟨removeKey st mid, rest⟩ := by
  have henc : encodeJ c d = (jb.length, jb) := by simp [encodeJ, hj]
  unfold stringMigrate
  simp [henc, hj0, hjlt, allocBuf, beginPrefs, putBytes, takeFault]

theorem jsonFallback_string (c : Codec) (mid : String) (str : String) (d : Doc)
    (st : Store) (rest : List Bool)
    (hs : lookupKey st mid = some (.strVal str)) (hstr : ¬ (str.length = 0))
    (hde : c.deJStr str = some d) :
    jsonFallback c mid ⟨st, true :: rest⟩ =
      (true, d, mpMigrate c mid d (stringMigrate c mid d ⟨st, rest⟩)) := by
  have hglen : getBytesLength st mid = 0 := by simp [getBytesLength, hs]
  have hgs : getString st mid "" = str := by simp [getString, hs]
  unfold jsonFallback
  simp [beginPrefs, takeFault, isKey, hs, hglen, hgs, hstr, hde]

theorem stringMigrate_ok (c : Codec) (mid : String) (d : Doc)
    (jb : List Nat) (st : Store) (rest : List Bool)
    (hj : c.serJ d = some jb) (hj0 : 0 < jb.length) (hjlt : jb.length < 2048) :
    stringMigrate c mid d ⟨st, true :: true :: true :: rest⟩ =
      ⟨putVal (removeKey st mid) mid (.bytesVal jb), rest⟩ := by
  have henc : encodeJ c d = (jb.length, jb) := by simp [encodeJ, hj]
  unfold stringMigrate
  simp [henc, hj0, hjlt, allocBuf, beginPrefs, putBytes, takeFault]

/-- Claim C7: for a load that successfully decodes a non-compact form while
the compact key does not yet exist and key construction succeeds, the load
writes the compact-binary encoding of the decoded document under the compact
key as a side effect, and a failure of that second migration's store write
does not change the load's success result.  The first conjunct covers the
text-bytes form, the second the legacy-string form; in each, the fault-free
schedule shows the compact key written and the schedule failing only the
final write shows the load still succeeding with the same document. -/
theorem nonCompactCompactMigration (c : Codec) (mid : String)
    (jbt jbs mb : List Nat) (d : Doc) (st : Store) (str : String)
    (h0 : ¬ (mid.length = 0)) (h12 : mid.length ≤ 12)
    (hmp : lookupKey st (mid ++ ":mp") = none)
    (hm : c.serMP d = some mb) (hm0 : ¬ (mb.length = 0))
    (hmfit : mb.length ≤ 2048) :
    (lookupKey st mid = some (.bytesVal jbt) → ¬ (jbt.length = 0) →
      jbt.length ≤ 2048 → c.deJ jbt = some d →
      loadModuleConfig c (some mid)
          ⟨st, [true, true, true, true, true, true, true, true, true]⟩ =
        (true, d, ⟨putVal st (mid ++ ":mp") (.bytesVal mb), []⟩) ∧
      loadModuleConfig c (some mid)
          ⟨st, [true, true, true, true, true, true, true, true, false]⟩ =
        (true, d, ⟨st, []⟩)) ∧
    (lookupKey st mid = some (.strVal str) → ¬ (str.length = 0) →
      c.deJStr str = some d → c.serJ d = some jbs → 0 < jbs.length →
      jbs.length < 2048 →
      loadModuleConfig c (some mid)
          ⟨st, [true, true, true, true, true, true, true, true, true, true]⟩ =
        (true, d,
         ⟨putVal (putVal (removeKey st mid) mid (.bytesVal jbs))
            (mid ++ ":mp") (.bytesVal mb), []⟩) ∧
      loadModuleConfig c (some mid)
          ⟨st, [true, true, true, true, true, true, true, true, true, false]⟩ =
        (true, d, ⟨putVal (removeKey st mid) mid (.bytesVal jbs), []⟩)) := by
  constructor
  · intro hj hj0 hjfit hde
    constructor
    · unfold loadModuleConfig
      dsimp only
      rw [if_neg h0]
      simp only [allocBuf, takeFault]
      rw [loadMP_notfound c mid st
            [true, true, true, true, true, true, true, true] rfl h0 h12 hmp]
      simp only [takeFault]
      rw [jsonFallback_bytes c mid jbt d st [true, true, true, true]
            hj hj0 hjfit hde]
      rw [mpMigrate_ok c mid d mb st h0 h12 hmp hm hm0 hmfit]
      simp
    · unfold loadModuleConfig
      dsimp only
      rw [if_neg h0]
      simp only [allocBuf, takeFault]
      rw [loadMP_notfound c mid st
            [true, true, true, true, true, true, true, false] rfl h0 h12 hmp]
      simp only [takeFault]
      rw [jsonFallback_bytes c mid jbt d st [true, true, true, false]
            hj hj0 hjfit hde]
      rw [mpMigrate_putfail c mid d mb st h0 h12 hmp hm hm0 hmfit]
      simp
  · intro hs hstr hde hj hj0 hjlt
    have hne : ¬ (mid = mid ++ ":mp") := Ne.symm (append_mp_ne mid)
    have hmp2 : lookupKey (putVal (removeKey st mid) mid (.bytesVal jbs))
        (mid ++ ":mp") = none := by
      rw [lookupKey_putVal, if_neg hne, lookupKey_removeKey, if_neg hne]
      exact hmp
    constructor
    · unfold loadModuleConfig
      dsimp only
      rw [if_neg h0]
      simp only [allocBuf, takeFault]
      rw [loadMP_notfound c mid st
            [true, true, true, true, true, true, true, true, true]
            rfl h0 h12 hmp]
      simp only [takeFault]
      rw [jsonFallback_string c mid str d st
            [true, true, true, true, true, true, true] hs hstr hde]
      rw [stringMigrate_ok c mid d jbs st [true, true, true, true] hj hj0 hjlt]
      rw [mpMigrate_ok c mid d mb
            (putVal (removeKey st mid) mid (.bytesVal jbs))
            h0 h12 hmp2 hm hm0 hmfit]
      simp
    · unfold loadModuleConfig
      dsimp only
      rw [if_neg h0]
      simp only [allocBuf, takeFault]
      rw [loadMP_notfound c mid st
            [true, true, true, true, true, true, true, true, false]
            rfl h0 h12 hmp]
      simp only [takeFault]
      rw [jsonFallback_string c mid str d st
            [true, true, true, true, true, true, false] hs hstr hde]
      rw [stringMigrate_ok c mid d jbs st [true, true, true, false] hj hj0 hjlt]
      rw [mpMigrate_putfail c mid d mb
            (putVal (removeKey st mid) mid (.bytesVal jbs))
            h0 h12 hmp2 hm hm0 hmfit]
      simp

/-- Claim C7 (witness): the text-bytes and the legacy-string migration at
concrete stores through the demo codec, each under the fault-free schedule
and under the schedule failing only the final compact write. -/
theorem nonCompactCompactMigrationWitness :
    (loadModuleConfig demoCodec (some "m")
        ⟨[("m", .bytesVal [1, 5])],
         [true, true, true, true, true, true, true, true, true]⟩ =
      (true, [5],
       ⟨putVal [("m", StoredVal.bytesVal [1, 5])] ("m" ++ ":mp")
          (.bytesVal [0, 5]), []⟩) ∧
     loadModuleConfig demoCodec (some "m")
        ⟨[("m", .bytesVal [1, 5])],
         [true, true, true, true, true, true, true, true, false]⟩ =
      (true, [5], ⟨[("m", StoredVal.bytesVal [1, 5])], []⟩)) ∧
    (loadModuleConfig demoCodec (some "m")
        ⟨[("m", .strVal "ab")],
         [true, true, true, true, true, true, true, true, true, true]⟩ =
      (true, [97, 98],
       ⟨putVal (putVal (removeKey [("m", StoredVal.strVal "ab")] "m") "m"
            (.bytesVal [1, 97, 98])) ("m" ++ ":mp") (.bytesVal [0, 97, 98]),
        []⟩) ∧
     loadModuleConfig demoCodec (some "m")
        ⟨[("m", .strVal "ab")],
         [true, true, true, true, true, true, true, true, true, false]⟩ =
      (true, [97, 98],
       ⟨putVal (removeKey [("m", StoredVal.strVal "ab")] "m") "m"
          (.bytesVal [1, 97, 98]), []⟩)) :=
  ⟨(nonCompactCompactMigration demoCodec "m" [1, 5] [1, 5] [0, 5] [5]
      [("m", .bytesVal [1, 5])] "x" (by decide) (by decide) rfl rfl
      (by decide) (by decide)).1 rfl (by decide) (by decide) rfl,
   (nonCompactCompactMigration demoCodec "m" [1, 97, 98] [1, 97, 98]
      [0, 97, 98] [97, 98] [("m", .strVal "ab")] "ab" (by decide) (by decide)
      rfl rfl (by decide) (by decide)).2 rfl (by decide) (by decide) rfl
      (by decide) (by decide)⟩

/-- Claim C1 (counterexample): a record stored in legacy-text-string form is
decoded, then migrated by remove-then-write; when both the text-bytes write
and the subsequent compact write fail, the load still reports success but
the previously stored value for the primary key is gone and the store is
left empty — the on-disk state is strictly worse than before the migration
attempt, contradicting the claim that a failed migration write leaves the
previously stored value present. -/
theorem legacyMigrationLossCounterexample :
    (loadModuleConfig demoCodec (some "m")
        ⟨[("m", .strVal "ab")],
         [true, true, true, true, true, false, true, true, true, false]⟩).1 =
      true ∧
    (loadModuleConfig demoCodec (some "m")
        ⟨[("m", .strVal "ab")],
         [true, true, true, true, true, false, true, true, true, false]⟩).2.2.store =
      [] := by
  constructor
  · decide
  · decide

/-- Claim C1 (amended): on a successful legacy-string decode the migration
removes the primary key before writing the text-bytes form, so when that
write fails the primary key is left absent (the previous value is not
preserved); the load itself still succeeds with the decoded document. -/
theorem legacyMigrationRemoveThenWrite (c : Codec) (mid : String)
    (str : String) (d : Doc) (jb mb : List Nat) (st : Store)
    (h0 : ¬ (mid.length = 0)) (h12 : mid.length ≤ 12)
    (hs : lookupKey st mid = some (.strVal str)) (hstr : ¬ (str.length = 0))
    (hmp : lookupKey st (mid ++ ":mp") = none)
    (hde : c.deJStr str = some d)
    (hj : c.serJ d = some jb) (hj0 : 0 < jb.length) (hjlt : jb.length < 2048)
    (hm : c.serMP d = some mb) (hm0 : ¬ (mb.length = 0))
    (hmfit : mb.length ≤ 2048) :
    loadModuleConfig c (some mid)
        ⟨st, [true, true, true, true, true, false, true, true, true, false]⟩ =
      (true, d, ⟨removeKey st mid, []⟩) := by
  have hmp2 : lookupKey (removeKey st mid) (mid ++ ":mp") = none := by
    rw [lookupKey_removeKey, hmp]
    simp
  unfold loadModuleConfig
  dsimp only
  rw [if_neg h0]
  simp only [allocBuf, takeFault]
  rw [loadMP_notfound c mid st
        [true, true, true, true, false, true, true, true, false] rfl h0 h12 hmp]
  simp only [takeFault]
  rw [jsonFallback_string c mid str d st
        [true, true, false, true, true, true, false] hs hstr hde]
  rw [stringMigrate_putfail c mid d jb st [true, true, true, false] hj hj0 hjlt]
  rw [mpMigrate_putfail c mid d mb (removeKey st mid) h0 h12 hmp2 hm hm0 hmfit]
  simp

/-- Claim C1 (amended, witness): the concrete legacy record from the
counterexample, through the demo codec. -/
theorem legacyMigrationRemoveThenWriteWitness :
    loadModuleConfig demoCodec (some "m")
        ⟨[("m", .strVal "ab")],
         [true, true, true, true, true, false, true, true, true, false]⟩ =
      (true, [97, 98], ⟨removeKey [("m", StoredVal.strVal "ab")] "m", []⟩) :=
  legacyMigrationRemoveThenWrite demoCodec "m" "ab" [97, 98] [1, 97, 98]
    [0, 97, 98] [("m", .strVal "ab")] (by decide) (by decide) rfl (by decide)
    rfl (by decide) rfl (by decide) (by decide) rfl (by decide) (by decide)

end NVSBus

namespace NVSBus

theorem loadMP_oversized (c : Codec) (mid : String) (bufSize : Nat)
    (st : Store) (f : List Bool) (b : List Nat)
    (hf : (takeFault f).1 = true)
    (h0 : ¬ (mid.length = 0)) (hb : ¬ (bufSize = 0)) (h12 : mid.length ≤ 12)
    (hv : lookupKey st (mid ++ ":mp") = some (.bytesVal b))
    (hlen : bufSize < b.length) :
    loadModuleConfigMsgPack c (some mid) bufSize ⟨st, f⟩ =
      (false, emptyDoc, ⟨st, (takeFault f).2⟩) := by
  have hcond : getBytesLength st (mid ++ ":mp") = 0 ∨
      bufSize < getBytesLength st (mid ++ ":mp") := by
    right
    simp [getBytesLength, hv, hlen]
  unfold loadModuleConfigMsgPack
  dsimp only
  rw [if_neg h0, if_neg hb, buildMsgPackKey_of_le mid h12]
  simp [beginPrefs, hf, isKey, hv, hcond]

theorem mpMigrate_exists (c : Codec) (mid : String) (d : Doc) (st : Store)
    (rest : List Bool) (h12 : mid.length ≤ 12)
    (hex : isKey st (mid ++ ":mp") = true) :
    mpMigrate c mid d ⟨st, true :: rest⟩ = ⟨st, rest⟩ := by
  unfold mpMigrate
  simp [buildMsgPackKey_of_le mid h12, beginPrefs, takeFault, hex]

theorem loadConfig_oversizedFallback (c : Codec) (mid : String)
    (b jb : List Nat) (d : Doc) (st : Store)
    (h0 : ¬ (mid.length = 0)) (h12 : mid.length ≤ 12)
    (hv : lookupKey st (mid ++ ":mp") = some (.bytesVal b))
    (hblen : 2048 < b.length)
    (hj : lookupKey st mid = some (.bytesVal jb)) (hj0 : ¬ (jb.length = 0))
    (hjfit : jb.length ≤ 2048) (hde : c.deJ jb = some d) :
    loadModuleConfig c (some mid) ⟨st, [true, true, true, true, true, true]⟩ =
      (true, d, ⟨st, []⟩) := by
  have hex : isKey st (mid ++ ":mp") = true := by
    unfold isKey
    rw [hv]
    rfl
  unfold loadModuleConfig
  dsimp only
  rw [if_neg h0]
  simp only [allocBuf, takeFault]
  rw [loadMP_oversized c mid 2048 st [true, true, true, true, true] b rfl h0
        (by decide) h12 hv hblen]
  simp only [takeFault]
  rw [jsonFallback_bytes c mid jb d st [true] hj hj0 hjfit hde]
  rw [mpMigrate_exists c mid d st [] h12 hex]
  simp

/-- Claim C4 (counterexample): with a compact record whose stored length
2049 exceeds the 2048-byte internal scratch capacity and a decodable
text-bytes record under the primary key, loadModuleConfig is claimed to fail
with BufferTooSmall; instead it silently falls back to the primary-key form
and succeeds with the text-bytes document. -/
theorem oversizedCompactFallback :
    loadModuleConfig demoCodec (some "m")
        ⟨[("m:mp", .bytesVal (List.replicate 2049 0)), ("m", .bytesVal [1, 5])],
         [true, true, true, true, true, true]⟩ =
      (true, [5],
       ⟨[("m:mp", .bytesVal (List.replicate 2049 0)), ("m", .bytesVal [1, 5])],
        []⟩) := by
  have hv : lookupKey
      [("m:mp", StoredVal.bytesVal (List.replicate 2049 0)),
       ("m", StoredVal.bytesVal [1, 5])] ("m" ++ ":mp") =
      some (.bytesVal (List.replicate 2049 0)) := by
    rw [show ("m" ++ ":mp") = "m:mp" from by decide]
    simp only [lookupKey, if_true]
  have hj : lookupKey
      [("m:mp", StoredVal.bytesVal (List.replicate 2049 0)),
       ("m", StoredVal.bytesVal [1, 5])] "m" =
      some (.bytesVal [1, 5]) := by
    simp only [lookupKey]
    rw [if_neg (by decide)]
    simp only [if_true]
  have hblen : (2048 : Nat) < (List.replicate 2049 (0 : Nat)).length := by
    rw [List.length_replicate]
    omega
  exact loadConfig_oversizedFallback demoCodec "m" (List.replicate 2049 0)
    [1, 5] [5] _ (by decide) (by decide) hv hblen hj (by decide) (by decide) rfl

/-- Claim C4 (amended): an existing compact key whose stored length exceeds
the scratch capacity makes loadModuleConfigMsgPack itself fail (returning
false with a cleared document, not "not found" within that resolver),
regardless of the fault schedule; but the combined loadModuleConfig then
falls back to the primary-key form, so the condition is not surfaced to its
caller as a failed load. -/
theorem oversizedCompactMsgPackFails (c : Codec) (mid : String)
    (bufSize : Nat) (s : NVSState) (b : List Nat)
    (h0 : ¬ (mid.length = 0)) (hb : ¬ (bufSize = 0)) (h12 : mid.length ≤ 12)
    (hv : lookupKey s.store (mid ++ ":mp") = some (.bytesVal b))
    (hlen : bufSize < b.length) :
    (loadModuleConfigMsgPack c (some mid) bufSize s).1 = false ∧
    (loadModuleConfigMsgPack c (some mid) bufSize s).2.1 = emptyDoc := by
  have hcond : getBytesLength s.store (mid ++ ":mp") = 0 ∨
      bufSize < getBytesLength s.store (mid ++ ":mp") := by
    right
    simp [getBytesLength, hv, hlen]
  unfold loadModuleConfigMsgPack
  dsimp only
  rw [if_neg h0, if_neg hb, buildMsgPackKey_of_le mid h12]
  dsimp only
  split
  · simp
  · simp [beginPrefs, isKey, hv, hcond]

/-- Claim C4 (amended, witness): a three-byte compact record against a
two-byte caller buffer. -/
theorem oversizedCompactMsgPackFailsWitness :
    (loadModuleConfigMsgPack demoCodec (some "m") 2
        ⟨[("m:mp", .bytesVal [7, 7, 7])], []⟩).1 = false ∧
    (loadModuleConfigMsgPack demoCodec (some "m") 2
        ⟨[("m:mp", .bytesVal [7, 7, 7])], []⟩).2.1 = emptyDoc :=
  oversizedCompactMsgPackFails demoCodec "m" 2
    ⟨[("m:mp", .bytesVal [7, 7, 7])], []⟩ [7, 7, 7]
    (by decide) (by decide) (by decide) (by decide) (by decide)

/-- Claim C8: clearing a valid ModuleId on a fault-free store removes both
the primary and the compact key and returns true exactly when at least one
of the two existed beforehand. -/
theorem clearRemovesBoth (mid : String) (st : Store)
    (h0 : ¬ (mid.length = 0)) (h12 : mid.length ≤ 12) :
    (clearModuleConfig (some mid) ⟨st, []⟩).1 =
      (isKey st mid || isKey st (mid ++ ":mp")) ∧
    lookupKey (clearModuleConfig (some mid) ⟨st, []⟩).2.store mid = none ∧
    lookupKey (clearModuleConfig (some mid) ⟨st, []⟩).2.store (mid ++ ":mp") =
      none := by
  have hne1 : ¬ (mid = mid ++ ":mp") := Ne.symm (append_mp_ne mid)
  have hne2 : ¬ (mid ++ ":mp" = mid) := append_mp_ne mid
  rcases hlj : lookupKey st mid with _ | w <;>
    rcases hlm : lookupKey st (mid ++ ":mp") with _ | v <;>
      simp [clearModuleConfig, h0, buildMsgPackKey_of_le mid h12, beginPrefs,
            takeFault, isKey, lookupKey_removeKey, hne1, hne2, hlj, hlm]

/-- Claim C8 (witness): clearing a module that had both forms present. -/
theorem clearRemovesBothWitness :
    (clearModuleConfig (some "m")
        ⟨[("m", .strVal "x"), ("m:mp", .bytesVal [0])], []⟩).1 =
      (isKey [("m", StoredVal.strVal "x"), ("m:mp", StoredVal.bytesVal [0])]
          "m" ||
        isKey [("m", StoredVal.strVal "x"), ("m:mp", StoredVal.bytesVal [0])]
          ("m" ++ ":mp")) ∧
    lookupKey (clearModuleConfig (some "m")
        ⟨[("m", .strVal "x"), ("m:mp", .bytesVal [0])], []⟩).2.store "m" =
      none ∧
    lookupKey (clearModuleConfig (some "m")
        ⟨[("m", .strVal "x"), ("m:mp", .bytesVal [0])], []⟩).2.store
        ("m" ++ ":mp") = none :=
  clearRemovesBoth "m" [("m", .strVal "x"), ("m:mp", .bytesVal [0])]
    (by decide) (by decide)

end NVSBus
